import Mathlib

/-!
Verification of `src/assets/js/news.js` (Synverta news renderer).

The JavaScript source is shallowly embedded: DOM state becomes an explicit
`Document` map, the network becomes an explicit `FetchResponse` oracle, the
module-level `newsCache` becomes an explicit `FetchState`, and each function
of the source becomes a pure Lean function of the same name.
-/

/-- The two display langs. `getCurrentLanguage` in the source returns
`'en'` when the `data-lang` attribute is exactly `"en"` and `'zh'` otherwise. -/
inductive Lang where
  | zh
  | en
deriving DecidableEq, Repr

/-- Embeds `getCurrentLanguage()`: reads the ambient `data-lang` attribute
(`none` models an unset attribute) and defaults to `zh` unless it is `"en"`. -/
def getCurrentLanguage (dataLang : Option String) : Lang :=
  if dataLang = some "en" then .en else .zh

/-- One news record of the JSON feed, as the source reads it
(`title`, `url`, `date`, `category`, `summary`, `tags`, `featured`). -/
structure NewsItem where
  title : String
  url : String
  date : String
  category : String
  summary : String
  tags : List String
  featured : Bool
deriving DecidableEq, Repr

/-- Embeds `new Date(s)` as used for ordering only: on the ISO-style date
strings of the feed (`"YYYY-MM-DD"`), reading the digits as one number is
order-isomorphic to the millisecond timestamp `new Date` produces. -/
def parseDate (s : String) : Nat :=
  (s.data.filter Char.isDigit).foldl (fun n c => n * 10 + (c.toNat - 48)) 0

/-- Embeds the comparator `(a, b) => new Date(b.date) - new Date(a.date)`:
`a` may come before `b` exactly when the comparator is `≤ 0`. -/
def newsDateLe (a b : NewsItem) : Bool :=
  parseDate b.date ≤ parseDate a.date

/-- Embeds `sortNewsByDate`: `[...newsItems].sort(cmp)` is a stable sort of a
fresh copy by the comparator, i.e. a stable merge sort under `newsDateLe`. -/
def sortNewsByDate (newsItems : List NewsItem) : List NewsItem :=
  newsItems.mergeSort newsDateLe

/-- A value the bracket lookup `labels[lang][category]` can produce: an own
string property of the object literal, or a member inherited from
`Object.prototype` (a function, or the prototype object for `__proto__`),
recorded by the key that reached it. -/
inductive JsValue where
  | str (s : String)
  | protoMember (key : String)
deriving DecidableEq, Repr

/-- The `Object.prototype` property names a bracket lookup on an object
literal finds through the prototype chain, Annex B browser members included. -/
def objectProtoKeys : List String :=
  ["constructor", "hasOwnProperty", "isPrototypeOf", "propertyIsEnumerable",
   "toLocaleString", "toString", "valueOf", "__proto__",
   "__defineGetter__", "__defineSetter__", "__lookupGetter__", "__lookupSetter__"]

/-- The fixed `labels` table of `getCategoryLabel`, keyed by language then
category: the bracket lookup `labels[lang][category]` finds the own string
property for the three known categories, otherwise an inherited
`Object.prototype` member when the category collides with one of its names,
and is `undefined` (`none`) only past the whole prototype chain. -/
def categoryLabels (lang : Lang) (category : String) : Option JsValue :=
  match lang with
  | .zh =>
    if category = "industry" then some (.str "行业资讯")
    else if category = "product" then some (.str "产品动态")
    else if category = "company" then some (.str "公司新闻")
    else if category ∈ objectProtoKeys then some (.protoMember category)
    else none
  | .en =>
    if category = "industry" then some (.str "Industry News")
    else if category = "product" then some (.str "Product Updates")
    else if category = "company" then some (.str "Company News")
    else if category ∈ objectProtoKeys then some (.protoMember category)
    else none

/-- Embeds the JavaScript `x || y` on a string-or-undefined left operand:
`undefined` and the empty string are falsy, every other string is truthy. -/
def jsOrString (x : Option String) (y : String) : String :=
  match x with
  | some s => if s = "" then y else s
  | none => y

/-- Embeds the JavaScript `x || y` where `x` is a lookup result: `undefined`
and the empty string are falsy and yield `y`; a non-empty label and every
inherited function or object are truthy and pass through. -/
def jsOrValue (x : Option JsValue) (y : String) : JsValue :=
  match x with
  | some (.str s) => if s = "" then .str y else .str s
  | some (.protoMember k) => .protoMember k
  | none => .str y

/-- Embeds `getCategoryLabel`: `labels[lang][category] || category`, with the
ambient language made an explicit argument. For a category colliding with an
`Object.prototype` member the lookup is truthy, so the `||` returns that
inherited member, not the category string. -/
def getCategoryLabel (lang : Lang) (category : String) : JsValue :=
  jsOrValue (categoryLabels lang category) category

/-- Template-literal stringification of an inherited `Object.prototype`
member, as the host renders it: the prototype object for `__proto__`, the
`Object` constructor for `constructor`, and the named native function
otherwise. -/
def protoMemberString (key : String) : String :=
  if key = "__proto__" then "[object Object]"
  else if key = "constructor" then "function Object() \x7b [native code] \x7d"
  else "function " ++ key ++ "() \x7b [native code] \x7d"

/-- Template-literal stringification (`ToString`) of a lookup value: a string
interpolates as itself, an inherited member as its host string form. -/
def jsDisplay (v : JsValue) : String :=
  match v with
  | .str s => s
  | .protoMember k => protoMemberString k

/-- The featured badge markup of `renderNewsItem`, hard-coded in the source
independently of the language. -/
def featuredBadgeHtml : String :=
  "<span class=\"news-featured-badge\">精选</span>"

/-- The `tagsHtml` constant of `renderNewsItem`: one tag badge per tag,
joined with `''`, or the empty string when there are no tags. -/
def tagsHtml (tags : List String) : String :=
  if tags.length > 0 then
    String.join (tags.map (fun tag => "<span class=\"news-tag\">" ++ tag ++ "</span>"))
  else ""

/-- Embeds `renderNewsItem`: the template literal of the source with the
interpolations written as explicit concatenation. -/
def renderNewsItem (lang : Lang) (item : NewsItem) : String :=
  let featuredBadge := if item.featured then featuredBadgeHtml else ""
  let categoryLabel := jsDisplay (getCategoryLabel lang item.category)
  "\n        <li class=\"news-item\">\n            <div>\n                <a class=\"news-title\" href=\""
    ++ item.url
    ++ "\">\n                    "
    ++ item.title
    ++ "\n                </a>\n                <div class=\"news-meta\">\n                    <span>"
    ++ item.date
    ++ "</span>\n                    <span>·</span>\n                    <span class=\"news-category\">"
    ++ categoryLabel
    ++ "</span>\n                    "
    ++ featuredBadge
    ++ "\n                    "
    ++ tagsHtml item.tags
    ++ "\n                </div>\n            </div>\n            <div class=\"news-summary\">\n                "
    ++ item.summary
    ++ "\n            </div>\n        </li>\n    "

/-- The part of the `renderNewsItem` template strictly before the featured
badge slot. -/
def renderBeforeBadge (lang : Lang) (item : NewsItem) : String :=
  "\n        <li class=\"news-item\">\n            <div>\n                <a class=\"news-title\" href=\""
    ++ item.url
    ++ "\">\n                    "
    ++ item.title
    ++ "\n                </a>\n                <div class=\"news-meta\">\n                    <span>"
    ++ item.date
    ++ "</span>\n                    <span>·</span>\n                    <span class=\"news-category\">"
    ++ jsDisplay (getCategoryLabel lang item.category)
    ++ "</span>\n                    "

/-- The part of the `renderNewsItem` template strictly after the featured
badge slot. -/
def renderAfterBadge (item : NewsItem) : String :=
  "\n                    "
    ++ tagsHtml item.tags
    ++ "\n                </div>\n            </div>\n            <div class=\"news-summary\">\n                "
    ++ item.summary
    ++ "\n            </div>\n        </li>\n    "

/-- The DOM, reduced to what the source touches: a map from element id to the
element's current `innerHTML`; `none` means no element with that id exists. -/
def Document : Type := String → Option String

/-- Embeds an `innerHTML` assignment on the element with the given id. -/
def setContainer (doc : Document) (id content : String) : Document :=
  fun i => if i = id then some content else doc i

/-- The language-specific default empty message of `renderNewsList`. -/
def defaultEmptyMessage (lang : Lang) : String :=
  if lang = .en then "No news in this category yet." else "该栏目暂时没有新闻。"

/-- The single empty-state element `renderNewsList` writes for an empty list. -/
def emptyStateHtml (msg : String) : String :=
  "<li class=\"empty-state\">" ++ msg ++ "</li>"

/-- Embeds `renderNewsList(containerId, items, emptyMessage)`: looks the
container up (absent id is a no-op), substitutes the language default for a
falsy `emptyMessage`, and writes either the empty state or the concatenation
of the rendered items. `items = none` models passing `undefined`/`null`. -/
def renderNewsList (containerId : String) (items : Option (List NewsItem))
    (emptyMessage : Option String) (lang : Lang) (doc : Document) : Document :=
  match doc containerId with
  | none => doc
  | some _ =>
    let msg := jsOrString emptyMessage (defaultEmptyMessage lang)
    match items with
    | none => setContainer doc containerId (emptyStateHtml msg)
    | some [] => setContainer doc containerId (emptyStateHtml msg)
    | some its => setContainer doc containerId (String.join (its.map (renderNewsItem lang)))

/-- What the network hands the single `fetch` of `fetchNews`: `fail` models a
rejected `fetch` (network error); `response ok json` models a resolved
response whose success flag is `ok` and whose body, when `json = some items`,
parses as a news array (`json = none` models an unparsable body). -/
inductive FetchResponse where
  | fail
  | response (ok : Bool) (json : Option (List NewsItem))
deriving DecidableEq, Repr

/-- The module-level state of the source: the `newsCache` variable
(`none` models `null`). -/
structure FetchState where
  newsCache : Option (List NewsItem)
deriving DecidableEq, Repr

/-- Everything observable about one `fetchNews()` call: its return value, the
cache state it leaves behind, how many network requests it issued, and
whether it logged an error. -/
structure FetchResult where
  items : List NewsItem
  state : FetchState
  requests : Nat
  loggedError : Bool
deriving DecidableEq, Repr

/-- The `try` block of `fetchNews`: await the fetch (a rejection propagates),
throw on a non-ok status, then parse the body (a parse failure propagates). -/
def fetchBody (r : FetchResponse) : Except String (List NewsItem) :=
  match r with
  | .fail => .error "network error"
  | .response ok json =>
    if !ok then .error "Failed to fetch news"
    else
      match json with
      | none => .error "parse error"
      | some newsItems => .ok newsItems

/-- The three failure kinds of `fetchNews`: network error, non-success
response status, malformed payload. -/
def isFetchFailure (r : FetchResponse) : Bool :=
  match r with
  | .fail => true
  | .response ok json => !ok || json.isNone

/-- Embeds `fetchNews()`: returns the cache when non-null without a request;
otherwise issues one request, and either caches and returns the parsed body
or, in the `catch`, logs the error and returns `[]` with the cache untouched.
A total function into `FetchResult`: no failure propagates to the caller. -/
def fetchNews (r : FetchResponse) (s : FetchState) : FetchResult :=
  match s.newsCache with
  | some cache => ⟨cache, s, 0, false⟩
  | none =>
    match fetchBody r with
    | .ok newsItems => ⟨newsItems, ⟨some newsItems⟩, 1, false⟩
    | .error _ => ⟨[], s, 1, true⟩

/-- One call of the list renderer as the page initializers issue it: target
container id, items passed, and the optional explicit empty message. -/
structure RenderCall where
  containerId : String
  items : List NewsItem
  emptyMessage : Option String
deriving DecidableEq, Repr

/-- The homepage category containers and the data category each one shows,
verbatim from the `categoryMappings` array of `initHomepage`. -/
def categoryMappings : List (String × String) :=
  [("home-breaking-news-list", "industry"),
   ("home-market-insights-list", "industry"),
   ("home-supply-chain-analysis-list", "industry")]

/-- The renderer calls `initHomepage` issues on a fetched dataset: after the
empty-dataset early return (a warning, no rendering), the latest 5, up to 3
featured, and up to 3 per mapped category, all from the sorted copy. -/
def initHomepageCalls (lang : Lang) (newsItems : List NewsItem) : List RenderCall :=
  if newsItems.length = 0 then []
  else
    let sortedNews := sortNewsByDate newsItems
    let latest5 := sortedNews.take 5
    let latestEmptyMsg := if lang = .en then "No news available yet." else "暂无最新新闻。"
    let featured := (sortedNews.filter (fun item => item.featured)).take 3
    let featuredEmptyMsg := if lang = .en then "No featured news yet." else "暂无焦点新闻。"
    [⟨"latest-news-list", latest5, some latestEmptyMsg⟩,
     ⟨"featured-news-list", featured, some featuredEmptyMsg⟩]
      ++ categoryMappings.map (fun m =>
        ⟨m.1, (sortedNews.filter (fun item => item.category = m.2)).take 3, none⟩)

/-- The renderer calls `initIndustryNewsPage` issues on a fetched dataset. -/
def initIndustryNewsPageCalls (newsItems : List NewsItem) : List RenderCall :=
  if newsItems.length = 0 then []
  else
    let sortedNews := sortNewsByDate newsItems
    let industryNews := sortedNews.filter (fun item => item.category = "industry")
    [⟨"industry-news-list", industryNews, some "该栏目暂时没有新闻。"⟩]

/-- The renderer calls `initCategoryPage` issues on a fetched dataset
(temporarily all news, per the TODO in the source). -/
def initCategoryPageCalls (lang : Lang) (newsItems : List NewsItem) : List RenderCall :=
  if newsItems.length = 0 then []
  else
    let sortedNews := sortNewsByDate newsItems
    let emptyMsg := if lang = .en then "No news in this category yet." else "该栏目暂时没有新闻。"
    [⟨"category-news-list", sortedNews, some emptyMsg⟩]

/-- Replays a list of renderer calls against the document, in order. -/
def runCalls (lang : Lang) (calls : List RenderCall) (doc : Document) : Document :=
  calls.foldl (fun d c => renderNewsList c.containerId (some c.items) c.emptyMessage lang d) doc

/-- Embeds `initHomepage` after its `fetchNews` await: derive the homepage
subsets and render each into its container. -/
def initHomepage (lang : Lang) (newsItems : List NewsItem) (doc : Document) : Document :=
  runCalls lang (initHomepageCalls lang newsItems) doc

/-- The items an initializer hands the container with the given id, if any. -/
def callItems (calls : List RenderCall) (id : String) : Option (List NewsItem) :=
  match calls.find? (fun c => c.containerId = id) with
  | some c => some c.items
  | none => none

/-- A heap of JavaScript arrays of news items: one cell per allocated array,
a reference being the index of its cell. Models reference identity, which the
pure functions above abstract away. -/
structure ArrayHeap where
  cells : List (List NewsItem)
deriving DecidableEq, Repr

/-- Reads the array a reference points to. -/
def readArr (h : ArrayHeap) (r : Nat) : List NewsItem :=
  h.cells.getD r []

/-- Allocates a fresh array holding `v`; returns the heap and the new
reference. -/
def allocArr (h : ArrayHeap) (v : List NewsItem) : ArrayHeap × Nat :=
  (⟨h.cells ++ [v]⟩, h.cells.length)

/-- `sortNewsByDate` at the reference level: `[...newsItems]` spreads the
input into a freshly allocated copy and `.sort` mutates only that copy. -/
def sortNewsByDateRef (h : ArrayHeap) (r : Nat) : ArrayHeap × Nat :=
  allocArr h (sortNewsByDate (readArr h r))

/-- `.filter(item => item.featured)` of `initHomepage` at the reference
level: `filter` allocates a fresh array. -/
def filterFeaturedRef (h : ArrayHeap) (r : Nat) : ArrayHeap × Nat :=
  allocArr h ((readArr h r).filter (fun item => item.featured))

/-- `.filter(item => item.category === cat)` at the reference level. -/
def filterCategoryRef (h : ArrayHeap) (r : Nat) (cat : String) : ArrayHeap × Nat :=
  allocArr h ((readArr h r).filter (fun item => item.category = cat))

/-- `.slice(0, n)` at the reference level: `slice` allocates a fresh array. -/
def sliceRef (h : ArrayHeap) (r : Nat) (n : Nat) : ArrayHeap × Nat :=
  allocArr h ((readArr h r).take n)

/-- The needle character list occurs contiguously inside the haystack. -/
def occursIn (needle hay : List Char) : Prop :=
  ∃ p s, hay = p ++ needle ++ s

/-- The first item of the spec's end-to-end dataset. -/
def c9item1 : NewsItem := ⟨"", "", "2024-01-01", "industry", "", [], true⟩

/-- The second item of the spec's end-to-end dataset. -/
def c9item2 : NewsItem := ⟨"", "", "2024-03-01", "product", "", [], false⟩

/-- A document holding one container, used as a concrete rendering target. -/
def docOneContainer : Document :=
  fun id => if id = "category-news-list" then some "" else none

/-- C1: `sortNewsByDate` returns a permutation of its input (same length and
multiset follow), pairwise non-increasing in parsed date. -/
theorem sortNewsByDate_perm_and_nonincreasing (l : List NewsItem) :
    (sortNewsByDate l).Perm l ∧
      List.Pairwise (fun a b => parseDate b.date ≤ parseDate a.date) (sortNewsByDate l) := by
  constructor
  · exact List.mergeSort_perm l newsDateLe
  · have h := @List.sorted_mergeSort NewsItem newsDateLe
      (fun a b c hab hbc => by
        simp only [newsDateLe, decide_eq_true_eq] at hab hbc ⊢
        omega)
      (fun a b => by
        simp only [newsDateLe, Bool.or_eq_true, decide_eq_true_eq]
        omega)
      l
    refine h.imp ?_
    intro a b hab
    simpa [newsDateLe] using hab

/-- C6 counterexample: the unknown category `"toString"` is not echoed
unchanged — the bracket lookup finds the truthy inherited
`Object.prototype.toString`, which the `||` fallback returns instead of the
category string. -/
theorem getCategoryLabel_proto_counterexample :
    getCategoryLabel .zh "toString" = .protoMember "toString" ∧
      getCategoryLabel .zh "toString" ≠ .str "toString" :=
  ⟨by decide, by decide⟩

/-- C6 amended: `getCategoryLabel` returns the fixed per-language label for
each known category (`industry`, `product`, `company`); an unknown category
whose name is an inherited `Object.prototype` member name yields that truthy
inherited member instead of the echo; every other unknown category is
returned unchanged. -/
theorem getCategoryLabel_known_and_unknown :
    (getCategoryLabel .zh "industry" = .str "行业资讯" ∧
      getCategoryLabel .zh "product" = .str "产品动态" ∧
      getCategoryLabel .zh "company" = .str "公司新闻" ∧
      getCategoryLabel .en "industry" = .str "Industry News" ∧
      getCategoryLabel .en "product" = .str "Product Updates" ∧
      getCategoryLabel .en "company" = .str "Company News") ∧
    (∀ (lang : Lang) (cat : String), cat ∉ ["industry", "product", "company"] →
      cat ∉ objectProtoKeys → getCategoryLabel lang cat = .str cat) ∧
    (∀ (lang : Lang) (cat : String), cat ∉ ["industry", "product", "company"] →
      cat ∈ objectProtoKeys → getCategoryLabel lang cat = .protoMember cat) := by
  refine ⟨by decide, ?_, ?_⟩
  · intro lang cat h hp
    simp only [List.mem_cons, List.not_mem_nil, or_false, not_or] at h
    obtain ⟨h1, h2, h3⟩ := h
    cases lang <;> simp [getCategoryLabel, categoryLabels, jsOrValue, h1, h2, h3, hp]
  · intro lang cat h hp
    simp only [List.mem_cons, List.not_mem_nil, or_false, not_or] at h
    obtain ⟨h1, h2, h3⟩ := h
    cases lang <;> simp [getCategoryLabel, categoryLabels, jsOrValue, h1, h2, h3, hp]

/-- Instance of `getCategoryLabel_known_and_unknown` at the plain unknown
category `"sports"` and the prototype-colliding `"hasOwnProperty"`. -/
theorem getCategoryLabel_unknown_witness :
    getCategoryLabel .en "sports" = .str "sports" ∧
      getCategoryLabel .en "hasOwnProperty" = .protoMember "hasOwnProperty" :=
  ⟨getCategoryLabel_known_and_unknown.2.1 .en "sports" (by decide) (by decide),
   getCategoryLabel_known_and_unknown.2.2 .en "hasOwnProperty" (by decide) (by decide)⟩

/-- C7: when the container id resolves to no element, `renderNewsList`
returns the document unchanged: no error, no mutation anywhere. -/
theorem renderNewsList_missing_container (containerId : String)
    (newsItems : Option (List NewsItem)) (emptyMessage : Option String)
    (lang : Lang) (doc : Document) (h : doc containerId = none) :
    renderNewsList containerId newsItems emptyMessage lang doc = doc := by
  unfold renderNewsList
  rw [h]

/-- Instance of `renderNewsList_missing_container` on the empty document. -/
theorem renderNewsList_missing_container_witness :
    ((fun _ => none : Document) "latest-news-list" = none) ∧
      renderNewsList "latest-news-list" none none .zh (fun _ => none : Document)
        = (fun _ => none : Document) :=
  ⟨rfl, renderNewsList_missing_container "latest-news-list" none none .zh _ rfl⟩

/-- C5: on every failure kind (network error, non-success status, malformed
payload) an uncached `fetchNews` call returns the empty list, leaves the
cache unwritten and logs the error; being a total function into
`FetchResult`, it propagates no failure to its caller. -/
theorem fetchNews_failure_spec (r : FetchResponse) (s : FetchState)
    (hs : s.newsCache = none) (hr : isFetchFailure r = true) :
    fetchNews r s = ⟨[], s, 1, true⟩ := by
  unfold fetchNews
  rw [hs]
  cases r with
  | fail => rfl
  | response ok json =>
    cases ok with
    | false => rfl
    | true =>
      cases json with
      | none => rfl
      | some newsItems => simp [isFetchFailure] at hr

/-- Instance of `fetchNews_failure_spec` at a network error. -/
theorem fetchNews_failure_spec_witness :
    fetchNews .fail ⟨none⟩ = ⟨[], ⟨none⟩, 1, true⟩ :=
  fetchNews_failure_spec .fail ⟨none⟩ rfl rfl

/-- C3 counterexample: after a first call that fails, the cache is still
empty, so a second `fetchNews` call issues a second network request — two
calls within one page lifetime perform two requests, not at most one. -/
theorem fetchNews_two_calls_counterexample :
    (fetchNews .fail ⟨none⟩).requests
        + (fetchNews .fail (fetchNews .fail ⟨none⟩).state).requests = 2 := rfl

/-- C3 amended: a cached call answers from the cache with no request; after a
first call that succeeds, any second call issues no request and returns the
cached dataset; but after a first call that fails, the cache is still empty
and the next call issues a fresh request. -/
theorem fetchNews_cache_amended :
    (∀ (r : FetchResponse) (s : FetchState) (d : List NewsItem),
      s.newsCache = some d → fetchNews r s = ⟨d, s, 0, false⟩) ∧
    (∀ (r2 : FetchResponse) (s : FetchState) (newsItems : List NewsItem),
      s.newsCache = none →
        fetchNews r2 (fetchNews (.response true (some newsItems)) s).state
          = ⟨newsItems, ⟨some newsItems⟩, 0, false⟩) ∧
    (∀ (r1 r2 : FetchResponse) (s : FetchState),
      s.newsCache = none → isFetchFailure r1 = true →
        (fetchNews r2 (fetchNews r1 s).state).requests = 1) := by
  refine ⟨?_, ?_, ?_⟩
  · intro r s d hd
    unfold fetchNews
    rw [hd]
  · intro r2 s newsItems hs
    have h1 : fetchNews (.response true (some newsItems)) s
        = ⟨newsItems, ⟨some newsItems⟩, 1, false⟩ := by
      unfold fetchNews
      rw [hs]
      rfl
    rw [h1]
    rfl
  · intro r1 r2 s hs hr
    have h1 : (fetchNews r1 s).state = s := by
      unfold fetchNews
      rw [hs]
      cases r1 with
      | fail => rfl
      | response ok json =>
        cases ok with
        | false => rfl
        | true =>
          cases json with
          | none => rfl
          | some newsItems => simp [isFetchFailure] at hr
    rw [h1]
    unfold fetchNews
    rw [hs]
    cases h2 : fetchBody r2 <;> rfl

/-- Instance of `fetchNews_cache_amended`: a cache hit, a success followed by
a request-free call, and a failure followed by a repeated request. -/
theorem fetchNews_cache_amended_witness :
    fetchNews .fail ⟨some []⟩ = ⟨[], ⟨some []⟩, 0, false⟩ ∧
      fetchNews .fail (fetchNews (.response true (some [])) ⟨none⟩).state
        = ⟨[], ⟨some []⟩, 0, false⟩ ∧
      (fetchNews .fail (fetchNews .fail ⟨none⟩).state).requests = 1 :=
  ⟨fetchNews_cache_amended.1 .fail ⟨some []⟩ [] rfl,
   fetchNews_cache_amended.2.1 .fail ⟨none⟩ [] rfl,
   fetchNews_cache_amended.2.2 .fail .fail ⟨none⟩ rfl rfl⟩

/-- C4 counterexample: on the empty dataset every initializer returns at its
early-return guard and issues no renderer call at all, rather than one call
per container. -/
theorem init_empty_dataset_counterexample :
    initHomepageCalls .zh [] = [] ∧ initIndustryNewsPageCalls [] = [] ∧
      initCategoryPageCalls .zh [] = [] :=
  ⟨rfl, rfl, rfl⟩

/-- C4 amended: on every non-empty dataset, each initializer calls the list
renderer exactly once per container its page defines, passing that
container's derived subset; the empty dataset is instead met by the warning
early return and no renderer call. -/
theorem init_calls_once_per_container (lang : Lang) (ds : List NewsItem)
    (hds : ds ≠ []) :
    (initHomepageCalls lang ds).map (fun c => (c.containerId, c.items))
        = [("latest-news-list", (sortNewsByDate ds).take 5),
           ("featured-news-list",
             ((sortNewsByDate ds).filter (fun item => item.featured)).take 3),
           ("home-breaking-news-list",
             ((sortNewsByDate ds).filter (fun item => item.category = "industry")).take 3),
           ("home-market-insights-list",
             ((sortNewsByDate ds).filter (fun item => item.category = "industry")).take 3),
           ("home-supply-chain-analysis-list",
             ((sortNewsByDate ds).filter (fun item => item.category = "industry")).take 3)] ∧
      initIndustryNewsPageCalls ds
        = [⟨"industry-news-list",
            (sortNewsByDate ds).filter (fun item => item.category = "industry"),
            some "该栏目暂时没有新闻。"⟩] ∧
      initCategoryPageCalls lang ds
        = [⟨"category-news-list", sortNewsByDate ds,
            some (if lang = .en then "No news in this category yet."
              else "该栏目暂时没有新闻。")⟩] := by
  have hlen : ¬ ds.length = 0 := fun h => hds (List.length_eq_zero.mp h)
  refine ⟨?_, ?_, ?_⟩ <;>
    simp [initHomepageCalls, initIndustryNewsPageCalls, initCategoryPageCalls,
      categoryMappings, hlen]

/-- Instance of `init_calls_once_per_container` on a one-item dataset. -/
theorem init_calls_once_per_container_witness :
    (initHomepageCalls .zh [⟨"t", "u", "2024-01-01", "industry", "s", [], true⟩]).map
        (fun c => (c.containerId, c.items))
      = [("latest-news-list",
            (sortNewsByDate [⟨"t", "u", "2024-01-01", "industry", "s", [], true⟩]).take 5),
         ("featured-news-list",
            ((sortNewsByDate [⟨"t", "u", "2024-01-01", "industry", "s", [], true⟩]).filter
              (fun item => item.featured)).take 3),
         ("home-breaking-news-list",
            ((sortNewsByDate [⟨"t", "u", "2024-01-01", "industry", "s", [], true⟩]).filter
              (fun item => item.category = "industry")).take 3),
         ("home-market-insights-list",
            ((sortNewsByDate [⟨"t", "u", "2024-01-01", "industry", "s", [], true⟩]).filter
              (fun item => item.category = "industry")).take 3),
         ("home-supply-chain-analysis-list",
            ((sortNewsByDate [⟨"t", "u", "2024-01-01", "industry", "s", [], true⟩]).filter
              (fun item => item.category = "industry")).take 3)] :=
  (init_calls_once_per_container .zh _ (List.cons_ne_nil _ _)).1

unseal List.merge List.mergeSort in
/-- C9: homepage initialization on the two-item dataset hands the latest-news
container the later-dated second item first, and hands the featured-news
container a list containing the featured first item. -/
theorem homepage_end_to_end :
    (∃ l, callItems (initHomepageCalls .zh [c9item1, c9item2]) "latest-news-list" = some l ∧
        l.head? = some c9item2) ∧
    (∃ f, callItems (initHomepageCalls .zh [c9item1, c9item2]) "featured-news-list" = some f ∧
        c9item1 ∈ f) := by
  refine ⟨⟨[c9item2, c9item1], by decide, rfl⟩, ⟨[c9item1], by decide, by decide⟩⟩

/-- C2 counterexample: with an empty item list and the supplied empty message
`""`, `renderNewsList` writes the language default instead of the supplied
message, because the source replaces every falsy `emptyMessage` — the empty
string included — by the default. -/
theorem renderNewsList_supplied_empty_message_counterexample :
    renderNewsList "category-news-list" (some []) (some "") .zh docOneContainer
          "category-news-list"
        = some (emptyStateHtml "该栏目暂时没有新闻。") ∧
      renderNewsList "category-news-list" (some []) (some "") .zh docOneContainer
          "category-news-list"
        ≠ some (emptyStateHtml "") := by
  exact ⟨by decide, by decide⟩

/-- C2 amended: into a container that exists, an absent or empty item
sequence writes exactly one empty-state element whose message is the
supplied one when it is non-empty, and the language default when the message
is absent or empty; a sequence of N > 0 items writes exactly the
concatenation of the N rendered fragments, one per item in input order. -/
theorem renderNewsList_writes (lang : Lang) (containerId : String)
    (doc : Document) (c : String) (hc : doc containerId = some c) :
    (∀ (newsItems : Option (List NewsItem)) (emptyMessage : Option String),
      (newsItems = none ∨ newsItems = some []) →
        ((∀ m, emptyMessage = some m → m ≠ "" →
          renderNewsList containerId newsItems emptyMessage lang doc containerId
            = some (emptyStateHtml m)) ∧
        ((emptyMessage = none ∨ emptyMessage = some "") →
          renderNewsList containerId newsItems emptyMessage lang doc containerId
            = some (emptyStateHtml (defaultEmptyMessage lang))))) ∧
    (∀ (its : List NewsItem) (emptyMessage : Option String), its ≠ [] →
      renderNewsList containerId (some its) emptyMessage lang doc containerId
          = some (String.join (its.map (renderNewsItem lang))) ∧
        (its.map (renderNewsItem lang)).length = its.length) := by
  constructor
  · rintro newsItems emptyMessage (rfl | rfl) <;>
    · constructor
      · rintro m rfl hm
        unfold renderNewsList
        rw [hc]
        simp [jsOrString, hm, setContainer]
      · rintro (rfl | rfl) <;>
        · unfold renderNewsList
          rw [hc]
          simp [jsOrString, setContainer]
  · intro its emptyMessage hits
    refine ⟨?_, List.length_map its (renderNewsItem lang)⟩
    unfold renderNewsList
    rw [hc]
    cases its with
    | nil => exact absurd rfl hits
    | cons a l => simp [setContainer]

/-- Instance of `renderNewsList_writes`: the default empty state for an empty
list, and the single rendered fragment for a one-item list. -/
theorem renderNewsList_writes_witness :
    renderNewsList "category-news-list" (some []) none .zh docOneContainer
          "category-news-list"
        = some (emptyStateHtml (defaultEmptyMessage .zh)) ∧
      renderNewsList "category-news-list"
            (some [⟨"t", "u", "2024-01-01", "industry", "s", [], false⟩]) none .zh
            docOneContainer "category-news-list"
        = some (String.join
            ([⟨"t", "u", "2024-01-01", "industry", "s", [], false⟩].map
              (renderNewsItem .zh))) :=
  ⟨((renderNewsList_writes .zh "category-news-list" docOneContainer "" rfl).1
      (some []) none (Or.inr rfl)).2 (Or.inl rfl),
   ((renderNewsList_writes .zh "category-news-list" docOneContainer "" rfl).2
      [⟨"t", "u", "2024-01-01", "industry", "s", [], false⟩] none
      (List.cons_ne_nil _ _)).1⟩

/-- Allocation preserves every already-allocated array. -/
theorem readArr_alloc_old (h : ArrayHeap) (v : List NewsItem) (i : Nat)
    (hi : i < h.cells.length) : readArr (allocArr h v).1 i = readArr h i := by
  unfold readArr allocArr
  exact List.getD_append _ _ _ _ hi

/-- The fresh reference of an allocation holds the allocated value. -/
theorem readArr_alloc_new (h : ArrayHeap) (v : List NewsItem) :
    readArr (allocArr h v).1 (allocArr h v).2 = v := by
  unfold readArr allocArr
  rw [List.getD_append_right _ _ _ _ (le_refl _)]
  simp

/-- C8: every derived view — the sorted copy, the featured filter, the
category filter, the slice — is written to a freshly allocated array (its
reference is the previously unused `h.cells.length`) holding the derived
sequence, while every existing array, the input included, is unchanged. -/
theorem derived_views_fresh (h : ArrayHeap) (r n i : Nat) (cat : String)
    (hi : i < h.cells.length) :
    (readArr (sortNewsByDateRef h r).1 i = readArr h i ∧
      (sortNewsByDateRef h r).2 = h.cells.length ∧
      readArr (sortNewsByDateRef h r).1 (sortNewsByDateRef h r).2
        = sortNewsByDate (readArr h r)) ∧
    (readArr (filterFeaturedRef h r).1 i = readArr h i ∧
      (filterFeaturedRef h r).2 = h.cells.length ∧
      readArr (filterFeaturedRef h r).1 (filterFeaturedRef h r).2
        = (readArr h r).filter (fun item => item.featured)) ∧
    (readArr (filterCategoryRef h r cat).1 i = readArr h i ∧
      (filterCategoryRef h r cat).2 = h.cells.length ∧
      readArr (filterCategoryRef h r cat).1 (filterCategoryRef h r cat).2
        = (readArr h r).filter (fun item => item.category = cat)) ∧
    (readArr (sliceRef h r n).1 i = readArr h i ∧
      (sliceRef h r n).2 = h.cells.length ∧
      readArr (sliceRef h r n).1 (sliceRef h r n).2 = (readArr h r).take n) :=
  ⟨⟨readArr_alloc_old h _ i hi, rfl, readArr_alloc_new h _⟩,
   ⟨readArr_alloc_old h _ i hi, rfl, readArr_alloc_new h _⟩,
   ⟨readArr_alloc_old h _ i hi, rfl, readArr_alloc_new h _⟩,
   ⟨readArr_alloc_old h _ i hi, rfl, readArr_alloc_new h _⟩⟩

/-- Instance of `derived_views_fresh` on a one-cell heap: sorting leaves the
original array untouched. -/
theorem derived_views_fresh_witness :
    readArr (sortNewsByDateRef ⟨[[]]⟩ 0).1 0 = readArr ⟨[[]]⟩ 0 :=
  (derived_views_fresh ⟨[[]]⟩ 0 1 0 "industry" (by decide)).1.1

/-- A character of the needle belongs to every haystack the needle occurs in. -/
theorem occursIn_mem {needle hay : List Char} (ho : occursIn needle hay)
    {ch : Char} (hc : ch ∈ needle) : ch ∈ hay := by
  obtain ⟨p, s, rfl⟩ := ho
  simp [hc]

/-- The characters of a joined string list are the characters of its parts. -/
theorem data_join (ss : List String) :
    (String.join ss).data = (ss.map String.data).flatten := by
  have key : ∀ (l : List String) (acc : String),
      (l.foldl (fun r t => r ++ t) acc).data = acc.data ++ (l.map String.data).flatten := by
    intro l
    induction l with
    | nil => intro acc; simp
    | cons x xs ih => intro acc; simp [ih, String.data_append]
  simpa [String.join, show ("" : String).data = [] from rfl] using key ss ""

/-- The tag badges contain no `精` when no tag does. -/
theorem tagsHtml_clean (tags : List String) (ht : ∀ t ∈ tags, '精' ∉ t.data) :
    '精' ∉ (tagsHtml tags).data := by
  unfold tagsHtml
  split
  · intro hmem
    rw [data_join] at hmem
    simp only [List.map_map, List.mem_flatten, List.mem_map, Function.comp] at hmem
    obtain ⟨l, ⟨t, htin, rfl⟩, hmem⟩ := hmem
    simp only [String.data_append, List.mem_append] at hmem
    rcases hmem with (hmem | hmem) | hmem
    · exact absurd hmem (by decide)
    · exact ht t htin hmem
    · exact absurd hmem (by decide)
  · intro hmem
    exact absurd hmem (by decide)

/-- The interpolated category label contains no `精` when the category does
not: none of the six fixed labels does, no inherited member stringifies to
one, and the fallback echoes the category. -/
theorem getCategoryLabel_clean (lang : Lang) (cat : String)
    (hc : '精' ∉ cat.data) : '精' ∉ (jsDisplay (getCategoryLabel lang cat)).data := by
  by_cases hp : cat ∈ objectProtoKeys
  · simp only [objectProtoKeys, List.mem_cons, List.not_mem_nil, or_false] at hp
    rcases hp with rfl | rfl | rfl | rfl | rfl | rfl | rfl | rfl | rfl | rfl | rfl | rfl <;>
      cases lang <;> decide
  · cases lang <;>
    · unfold getCategoryLabel categoryLabels
      split_ifs with k1 k2 k3
      · simp [jsOrValue, jsDisplay]
        try decide
      · simp [jsOrValue, jsDisplay]
        try decide
      · simp [jsOrValue, jsDisplay]
        try decide
      · exact hc

/-- `renderNewsItem` is the text before the badge slot, the badge when the
item is featured, and the text after the badge slot. -/
theorem renderNewsItem_decomp (lang : Lang) (item : NewsItem) :
    renderNewsItem lang item
      = renderBeforeBadge lang item
          ++ ((if item.featured then featuredBadgeHtml else "") ++ renderAfterBadge item) := by
  simp [renderNewsItem, renderBeforeBadge, renderAfterBadge, String.append_assoc]

/-- C10: a featured item's fragment contains the badge markup with the fixed
text `精选` whatever the language; an unfeatured item's fragment contains no
badge occurrence, provided the item's own display strings are free of the
badge character `精`. -/
theorem featured_badge_spec :
    (∀ (lang : Lang) (item : NewsItem), item.featured = true →
      occursIn featuredBadgeHtml.data (renderNewsItem lang item).data ∧
        occursIn "精选".data (renderNewsItem lang item).data) ∧
    (∀ (lang : Lang) (item : NewsItem), item.featured = false →
      '精' ∉ item.title.data → '精' ∉ item.url.data → '精' ∉ item.date.data →
      '精' ∉ item.category.data → '精' ∉ item.summary.data →
      (∀ t ∈ item.tags, '精' ∉ t.data) →
      ¬ occursIn featuredBadgeHtml.data (renderNewsItem lang item).data) := by
  constructor
  · intro lang item hf
    constructor
    · refine ⟨(renderBeforeBadge lang item).data, (renderAfterBadge item).data, ?_⟩
      rw [renderNewsItem_decomp]
      simp [hf, String.data_append, List.append_assoc]
    · refine ⟨(renderBeforeBadge lang item ++ "<span class=\"news-featured-badge\">").data,
        ("</span>" ++ renderAfterBadge item).data, ?_⟩
      rw [renderNewsItem_decomp,
        show featuredBadgeHtml
          = "<span class=\"news-featured-badge\">" ++ "精选" ++ "</span>" from rfl]
      simp [hf, String.data_append, List.append_assoc]
  · intro lang item hf h1 h2 h3 h4 h5 h6 hocc
    have hchar : '精' ∈ (renderNewsItem lang item).data := occursIn_mem hocc (by decide)
    rw [renderNewsItem_decomp] at hchar
    have p1 : '精' ∉ ("\n        <li class=\"news-item\">\n            <div>\n                <a class=\"news-title\" href=\"" : String).data := by decide
    have p2 : '精' ∉ ("\">\n                    " : String).data := by decide
    have p3 : '精' ∉ ("\n                </a>\n                <div class=\"news-meta\">\n                    <span>" : String).data := by decide
    have p4 : '精' ∉ ("</span>\n                    <span>·</span>\n                    <span class=\"news-category\">" : String).data := by decide
    have p5 : '精' ∉ ("</span>\n                    " : String).data := by decide
    have s1 : '精' ∉ ("\n                    " : String).data := by decide
    have s2 : '精' ∉ ("\n                </div>\n            </div>\n            <div class=\"news-summary\">\n                " : String).data := by decide
    have s3 : '精' ∉ ("\n            </div>\n        </li>\n    " : String).data := by decide
    have e0 : '精' ∉ ("" : String).data := by decide
    have hlabel := getCategoryLabel_clean lang item.category h4
    have htags := tagsHtml_clean item.tags h6
    simp only [renderBeforeBadge, renderAfterBadge, hf, Bool.false_eq_true, if_false,
      String.data_append, List.mem_append, p1, p2, p3, p4, p5, s1, s2, s3, e0,
      h1, h2, h3, h5, hlabel, htags, false_or, or_false] at hchar

/-- Instance of `featured_badge_spec`: the badge occurs for a featured item
rendered in English, and does not occur for the same item unfeatured. -/
theorem featured_badge_spec_witness :
    occursIn featuredBadgeHtml.data
        (renderNewsItem .en ⟨"t", "u", "2024-01-01", "industry", "s", ["a"], true⟩).data ∧
      ¬ occursIn featuredBadgeHtml.data
        (renderNewsItem .en ⟨"t", "u", "2024-01-01", "industry", "s", ["a"], false⟩).data :=
  ⟨(featured_badge_spec.1 .en ⟨"t", "u", "2024-01-01", "industry", "s", ["a"], true⟩ rfl).1,
   featured_badge_spec.2 .en ⟨"t", "u", "2024-01-01", "industry", "s", ["a"], false⟩ rfl
     (by decide) (by decide) (by decide) (by decide) (by decide) (by decide)⟩
